import Mathlib

/-!
Verification of the Vertex AI passthrough adapter
(`litellm/llms/vertex_ai/passthrough/transformation.py`).

The Python code is shallowly embedded: strings are Lean `String`s, Python
dicts are association lists that preserve insertion order (assignment to an
existing key replaces the value in place, a new key is appended at the end,
exactly as CPython dicts behave), and fallible code returns `Except`.
Collaborators that live outside the translated file (`VertexBase` and
`BasePassthroughConfig`) are modelled from the spec at their interface
boundary; each such definition carries a doc comment saying so.
-/

namespace VertexPassthrough

/-! ### String primitives

Python's `needle in hay`, `s.startswith(pat)` and `s.endswith(pat)` are
embedded as executable functions on the character lists of the strings,
together with characterisations in terms of Mathlib's `<+:`, `<:+`, `<:+:`.
-/

/-- Boolean test that `pat` is a prefix of `s` (on character lists). -/
def startsWithChars : List Char → List Char → Bool
  | [], _ => true
  | _ :: _, [] => false
  | p :: ps, c :: cs => p == c && startsWithChars ps cs

/-- Boolean test that `pat` is a suffix of `s` (on character lists). -/
def endsWithChars (pat : List Char) : List Char → Bool
  | [] => pat == []
  | c :: t => pat == c :: t || endsWithChars pat t

/-- Boolean test that `needle` occurs contiguously inside `hay`. -/
def containsChars (needle : List Char) : List Char → Bool
  | [] => needle == []
  | c :: t => startsWithChars needle (c :: t) || containsChars needle t

theorem startsWithChars_iff : ∀ (p s : List Char), startsWithChars p s = true ↔ p <+: s
  | [], s => by simp [startsWithChars]
  | p :: ps, [] => by simp [startsWithChars]
  | p :: ps, c :: cs => by
      simp [startsWithChars, List.cons_prefix_cons, startsWithChars_iff ps cs]

theorem endsWithChars_iff (pat : List Char) : ∀ (s : List Char),
    endsWithChars pat s = true ↔ pat <:+ s
  | [] => by simp [endsWithChars, List.suffix_nil]
  | c :: t => by
      simp [endsWithChars, List.suffix_cons_iff, endsWithChars_iff pat t]

theorem containsChars_iff (needle : List Char) : ∀ (s : List Char),
    containsChars needle s = true ↔ needle <:+: s
  | [] => by simp [containsChars, List.infix_nil]
  | c :: t => by
      simp [containsChars, List.infix_cons_iff, startsWithChars_iff,
        containsChars_iff needle t]

/-- Python `needle in hay` (contiguous substring test). -/
def strIn (needle hay : String) : Bool := containsChars needle.toList hay.toList

/-- Python `s.startswith(pat)`. -/
def strStartsWith (s pat : String) : Bool := startsWithChars pat.toList s.toList

/-- Python `s.endswith(pat)`. -/
def strEndsWith (s pat : String) : Bool := endsWithChars pat.toList s.toList

theorem strIn_of_infix {needle hay : String} (h : needle.data <:+: hay.data) :
    strIn needle hay = true := by
  simpa [strIn, String.toList, containsChars_iff] using h

theorem strEndsWith_of_suffix {s pat : String} (h : pat.data <:+ s.data) :
    strEndsWith s pat = true := by
  simpa [strEndsWith, String.toList, endsWithChars_iff] using h

/-- Python `s.lower()` (`str.lower` maps each character to lower case; the
claims only involve basic latin text, where `Char.toLower` agrees with
Python). Defined by structural recursion over the character list so that it
evaluates on concrete inputs. -/
def strLower (s : String) : String := String.mk (s.data.map Char.toLower)

/-! ### Python values and dicts -/

/-- The Python values the adapter's request-data and optional-params
mappings carry in the claims under study. -/
inductive PyValue where
  | pynone
  | pybool (b : Bool)
  | pyint (n : Int)
  | pystr (s : String)
deriving DecidableEq, Repr

/-- Python truthiness (`bool(v)`). -/
def PyValue.truthy : PyValue → Bool
  | .pynone => false
  | .pybool b => b
  | .pyint n => n != 0
  | .pystr s => s != ""

/-- Python `repr` of a value, as it appears inside `str(some_dict)`. -/
def PyValue.pyRepr : PyValue → String
  | .pynone => "None"
  | .pybool true => "True"
  | .pybool false => "False"
  | .pyint n => toString n
  | .pystr s => "\x27" ++ s ++ "\x27"

/-- A Python dict with string keys and `PyValue` values, in insertion order. -/
abbrev PyDict := List (String × PyValue)

/-- Python `d.get(key, dflt)`. -/
def pyGetD : PyDict → String → PyValue → PyValue
  | [], _, dflt => dflt
  | (k2, v) :: rest, k, dflt => if k2 = k then v else pyGetD rest k dflt

/-- Python `key in d` (key membership, exact string comparison). -/
def pyHasKey : PyDict → String → Bool
  | [], _ => false
  | (k2, _) :: rest, k => k2 == k || pyHasKey rest k

/-- Python `str(d)` for a dict: `\x7b'k': repr(v), ...\x7d`. -/
def pyStr (d : PyDict) : String :=
  "\x7b" ++
    String.intercalate ", "
      (d.map fun kv => "\x27" ++ kv.1 ++ "\x27: " ++ kv.2.pyRepr) ++
    "\x7d"

/-- A Python dict with string keys and string values (an HTTP header map). -/
abbrev HDict := List (String × String)

/-- Python `d[key]` lookup returning `none` when absent. -/
def hget : HDict → String → Option String
  | [], _ => none
  | (k2, v) :: rest, k => if k2 = k then some v else hget rest k

/-- Python dict assignment `d[key] = val`: replaces in place when the key
exists, appends otherwise. -/
def hset : HDict → String → String → HDict
  | [], k, v => [(k, v)]
  | (k2, v2) :: rest, k, v =>
      if k2 = k then (k2, v) :: rest else (k2, v2) :: hset rest k v

/-- Python `key in d`. -/
def hcontains (d : HDict) (k : String) : Bool := (hget d k).isSome

/-- Python `d.update(entries)`: assigns every entry in order. -/
def hupdate (d : HDict) (entries : List (String × String)) : HDict :=
  entries.foldl (fun acc kv => hset acc kv.1 kv.2) d

theorem hget_hset_self : ∀ (d : HDict) (k v : String), hget (hset d k v) k = some v
  | [], k, v => by simp [hset, hget]
  | (k2, v2) :: rest, k, v => by
      by_cases h : k2 = k <;> simp [hset, hget, h, hget_hset_self rest k v]

theorem hget_hset_ne : ∀ (d : HDict) (k k2 v : String), k2 ≠ k →
    hget (hset d k2 v) k = hget d k
  | [], k, k2, v, h => by simp [hset, hget, h]
  | (k3, v3) :: rest, k, k2, v, h => by
      by_cases h3 : k3 = k2
      · subst h3
        simp [hset, hget, h, Ne.symm h]
      · by_cases h4 : k3 = k <;>
          simp [hset, hget, h3, h4, Ne.symm h, hget_hset_ne rest k k2 v h]

/-! ### `is_streaming_request` (translated from
`VertexAIPassthroughConfig.is_streaming_request`) -/

/-- Streaming classification of
`VertexAIPassthroughConfig.is_streaming_request`: endpoint keyword check
(case-insensitive), then truthiness of `request_data.get("stream", False)`,
then exact-key membership of "realtime"/"live". -/
def is_streaming_request (endpoint : String) (request_data : PyDict) : Bool :=
  if ["stream", "live", "realtime"].any (fun keyword => strIn keyword (strLower endpoint)) then
    true
  else if (pyGetD request_data "stream" (PyValue.pybool false)).truthy then
    true
  else if ["realtime", "live"].any (fun keyword => pyHasKey request_data keyword) then
    true
  else
    false

example : is_streaming_request "live/stream" [] = true := by decide
example : is_streaming_request "predict" [] = false := by decide
example : is_streaming_request "" [("stream", .pybool true)] = true := by decide
example : is_streaming_request "" [("stream", .pybool false)] = false := by decide
example : is_streaming_request "" [("live", .pybool false)] = true := by decide
example : is_streaming_request "" [("Live", .pybool true)] = false := by decide

/-! ### Configuration, errors, URL assembly -/

/-- Modelled from the spec: `ProviderConfig` of §3 — the configuration the
`VertexBase` helpers `get_vertex_ai_project` / `get_vertex_ai_location`
(not under src/) read the project id and region from (`litellm_params`). -/
structure ProviderConfig where
  project_id : Option String
  region : Option String
deriving DecidableEq, Repr

/-- The error category of §7 that `get_complete_url` signals by raising:
both `raise Exception` sites of the source are configuration failures. -/
inductive VertexError where
  | configurationError (msg : String)
deriving DecidableEq, Repr

/-- The failure of the Credential Resolver (§7 `AuthenticationError`). -/
inductive AuthenticationFailure where
  | authenticationError (msg : String)
deriving DecidableEq, Repr

/-- Modelled from the spec: the absolute URL assembled by
`BasePassthroughConfig.format_url` (not under src/) — §4.2 steps 5 and 6:
the path is the endpoint joined to the base host, and the query params are
kept alongside it. -/
structure URL where
  path : String
  query : List (String × String)
deriving DecidableEq, Repr

/-- Modelled from the spec: `BasePassthroughConfig.format_url` (not under
src/) joins the endpoint to the base host and appends the query params (if
any) as a standard query string. -/
def format_url (endpoint base_target_url : String)
    (request_query_params : Option (List (String × String))) : URL :=
  { path := base_target_url ++ endpoint
    query := request_query_params.getD [] }

/-- Modelled from the spec: the host-resolution policy
`resolve_host(explicit_base, region) -> optional string` of §6, instantiated
with the wire-level default host `https://{region}-aiplatform.googleapis.com`
when no explicit override is given (used as the concrete resolver in
witnesses; the theorems quantify over the policy). -/
def get_api_base (api_base : Option String) (vertex_location : String) :
    Option String :=
  match api_base with
  | some b => some b
  | none => some ("https://" ++ vertex_location ++ "-aiplatform.googleapis.com")

/-- The Live API endpoint template string built by `get_complete_url`
(`live_endpoint` in the source). -/
def live_endpoint (vertex_project vertex_location model : String) : String :=
  "v1beta1/projects/" ++ vertex_project ++ "/locations/" ++ vertex_location ++
    "/publishers/google/models/" ++ model ++ ":streamRawPredict"

/-- The slash-prefix normalisation `if not endpoint.startswith("/"):
endpoint = "/" + endpoint` applied in both branches of the source. -/
def ensureSlash (endpoint : String) : String :=
  if strStartsWith endpoint "/" then endpoint else "/" ++ endpoint

/-! ### `get_complete_url` (translated from
`VertexAIPassthroughConfig.get_complete_url`)

The host-resolution policy (`get_api_base` of `VertexBase`, not under src/)
is passed in as the function `resolve_host`, following §6 of the spec. -/

/-- Translation of `VertexAIPassthroughConfig.get_complete_url`: default the
region to "global" when absent, resolve the base host (raising when none is
found), and for "live"/"realtime" endpoints substitute the canonical Live
API template — requiring a project id — unless the slash-prefixed endpoint
already starts with "/v1beta1". -/
def get_complete_url (resolve_host : Option String → String → Option String)
    (api_base : Option String) (model endpoint : String)
    (request_query_params : Option (List (String × String)))
    (litellm_params : ProviderConfig) : Except VertexError (URL × String) :=
  let vertex_project := litellm_params.project_id
  let vertex_location := litellm_params.region
  let vertex_location := vertex_location.getD "global"
  match resolve_host api_base vertex_location with
  | none => Except.error (VertexError.configurationError "Vertex AI api base not found")
  | some base_target_url =>
    if strIn "live" (strLower endpoint) || strIn "realtime" (strLower endpoint) then
      match vertex_project with
      | none => Except.error (VertexError.configurationError "Vertex AI project ID is required for Live API")
      | some vertex_project =>
        let live_ep := live_endpoint vertex_project vertex_location model
        let endpoint := ensureSlash endpoint
        let endpoint := if strStartsWith endpoint "/v1beta1" then endpoint else "/" ++ live_ep
        Except.ok (format_url endpoint base_target_url request_query_params, base_target_url)
    else
      let endpoint := ensureSlash endpoint
      Except.ok (format_url endpoint base_target_url request_query_params, base_target_url)

example :
    get_complete_url get_api_base none "gemini-2.0-flash-live-preview"
      "live/stream" none ⟨some "test-project-123", some "us-central1"⟩ =
    Except.ok
      (⟨"https://us-central1-aiplatform.googleapis.com/v1beta1/projects/test-project-123/locations/us-central1/publishers/google/models/gemini-2.0-flash-live-preview:streamRawPredict", []⟩,
       "https://us-central1-aiplatform.googleapis.com") := rfl

example :
    get_complete_url get_api_base none "gemini-pro" "predict" none
      ⟨some "test-project-123", some "us-central1"⟩ =
    Except.ok
      (⟨"https://us-central1-aiplatform.googleapis.com/predict", []⟩,
       "https://us-central1-aiplatform.googleapis.com") := rfl

/-! ### `validate_environment` (translated from
`VertexAIPassthroughConfig.validate_environment`) -/

/-- The header computation of `validate_environment` after the Credential
Resolver has produced `(access_token, project_id)`: unconditionally assign
`Authorization` and `Content-Type`, and additionally assign
`X-Goog-User-Project` when "live" occurs in the lowercased model name or
"realtime" occurs in the lowercased `str(optional_params)`. -/
def validate_environment_headers (headers : HDict) (model : String)
    (optional_params : PyDict) (access_token project_id : String) : HDict :=
  let headers := hupdate headers
    [("Authorization", "Bearer " ++ access_token),
     ("Content-Type", "application/json")]
  if strIn "live" (strLower model) || strIn "realtime" (strLower (pyStr optional_params)) then
    hupdate headers [("X-Goog-User-Project", project_id)]
  else
    headers

/-- Translation of `VertexAIPassthroughConfig.validate_environment` at the
value level. The Credential Resolver call `_ensure_access_token` (in
`VertexBase`, not under src/) is modelled from the spec (§6 `mint_token`):
its outcome for this request is passed in as `mint`, and its failure
propagates (§4.3 step 5). -/
def validate_environment (headers : HDict) (model : String)
    (optional_params : PyDict)
    (mint : Except AuthenticationFailure (String × String)) :
    Except AuthenticationFailure HDict :=
  match mint with
  | Except.error e => Except.error e
  | Except.ok (access_token, project_id) =>
      Except.ok (validate_environment_headers headers model optional_params
        access_token project_id)

/-- `validate_environment` with Python object aliasing made explicit: the
heap is a list of dict objects and `r` is the reference the caller passes.
`headers.update(...)` in the source mutates the dict object `r` points at,
and `return headers` returns that same reference (credential resolution is
assumed successful here, with outcome `(access_token, project_id)`). -/
def validate_environment_ref (heap : List HDict) (r : Nat) (model : String)
    (optional_params : PyDict) (access_token project_id : String) :
    List HDict × Nat :=
  (heap.set r (validate_environment_headers (heap.getD r []) model
      optional_params access_token project_id),
   r)

example :
    validate_environment [] "gemini-2.0-flash-live-preview" []
      (Except.ok ("mock_access_token", "test-project-123")) =
    Except.ok
      [("Authorization", "Bearer mock_access_token"),
       ("Content-Type", "application/json"),
       ("X-Goog-User-Project", "test-project-123")] := rfl

example :
    validate_environment [] "gemini-pro" [("live", .pybool true)]
      (Except.ok ("tok", "proj")) =
    Except.ok
      [("Authorization", "Bearer tok"),
       ("Content-Type", "application/json")] := rfl

example :
    validate_environment [] "gemini-pro" [("note", .pystr "realtime")]
      (Except.ok ("tok", "proj")) =
    Except.ok
      [("Authorization", "Bearer tok"),
       ("Content-Type", "application/json"),
       ("X-Goog-User-Project", "proj")] := rfl

/-! ### Model catalog (translated from `get_models` / `get_base_model`) -/

/-- The hardcoded list of models supported by the Vertex AI Live API
passthrough (`VertexAIPassthroughConfig.get_models`). -/
def get_models : List String :=
  ["gemini-2.0-flash-live-preview",
   "gemini-live-2.5-flash",
   "gemini-live-2.5-flash-preview-native-audio",
   "gemini-2.0-flash-live-001"]

/-- Translation of `VertexAIPassthroughConfig.get_base_model`: return the
model unchanged when it matches the "live"/"realtime" heuristic, else
`none`. -/
def get_base_model (model : String) : Option String :=
  if strIn "live" (strLower model) || strIn "realtime" (strLower model) then
    some model
  else
    none

example : get_base_model "gemini-live-2.5-flash" = some "gemini-live-2.5-flash" := by decide
example : get_base_model "gemini-pro" = none := by decide

/-! ### Helper lemmas on header dicts -/

theorem hcontains_hset_self (d : HDict) (k v : String) :
    hcontains (hset d k v) k = true := by
  simp [hcontains, hget_hset_self]

theorem hcontains_hset_ne (d : HDict) (k k2 v : String) (h : k2 ≠ k) :
    hcontains (hset d k2 v) k = hcontains d k := by
  simp [hcontains, hget_hset_ne d k k2 v h]

/-! ### Claim theorems -/

/-- C5: for every endpoint string whose lowercase form contains "stream",
"live", or "realtime", `is_streaming_request` returns true, independent of
the params mapping. -/
theorem is_streaming_request_of_endpoint_token (endpoint : String)
    (request_data : PyDict)
    (h : strIn "stream" (strLower endpoint) = true ∨
         strIn "live" (strLower endpoint) = true ∨
         strIn "realtime" (strLower endpoint) = true) :
    is_streaming_request endpoint request_data = true := by
  rcases h with h | h | h <;> simp [is_streaming_request, h]

/-- Witness for C5 at the concrete endpoint "streamRawPredict" with a params
mapping whose "stream" entry is falsy. -/
theorem is_streaming_request_of_endpoint_token_witness :
    (strIn "stream" (strLower "streamRawPredict") = true ∨
     strIn "live" (strLower "streamRawPredict") = true ∨
     strIn "realtime" (strLower "streamRawPredict") = true) ∧
    is_streaming_request "streamRawPredict" [("stream", PyValue.pybool false)] = true :=
  ⟨Or.inl (by decide),
   is_streaming_request_of_endpoint_token "streamRawPredict"
     [("stream", PyValue.pybool false)] (Or.inl (by decide))⟩

/-- C6: for every params mapping that has a truthy "stream" entry, or that
contains a key named "realtime" or "live" with any value whatsoever,
`is_streaming_request` returns true for every endpoint. -/
theorem is_streaming_request_of_params (endpoint : String)
    (request_data : PyDict)
    (h : (pyGetD request_data "stream" (PyValue.pybool false)).truthy = true ∨
         pyHasKey request_data "realtime" = true ∨
         pyHasKey request_data "live" = true) :
    is_streaming_request endpoint request_data = true := by
  by_cases h1 :
      (["stream", "live", "realtime"].any
        (fun keyword => strIn keyword (strLower endpoint))) = true
  · simp [is_streaming_request, h1]
  · rcases h with h | h | h <;> simp [is_streaming_request, h1, h]

/-- Witness for C6 at the empty endpoint with a params mapping containing
the key "live" with value `False`. -/
theorem is_streaming_request_of_params_witness :
    ((pyGetD [("live", PyValue.pybool false)] "stream" (PyValue.pybool false)).truthy = true ∨
     pyHasKey [("live", PyValue.pybool false)] "realtime" = true ∨
     pyHasKey [("live", PyValue.pybool false)] "live" = true) ∧
    is_streaming_request "" [("live", PyValue.pybool false)] = true :=
  ⟨Or.inr (Or.inr (by decide)),
   is_streaming_request_of_params "" [("live", PyValue.pybool false)]
     (Or.inr (Or.inr (by decide)))⟩

/-- C10: the key-presence rule of `is_streaming_request` is case-sensitive:
when the endpoint carries no streaming token (case-insensitively), the
"stream" entry (if any) is falsy, and the params mapping does not contain
the exact keys "realtime" or "live" — in particular when its only candidate
keys are case variants such as "Live" or "REALTIME" — the result is false. -/
theorem is_streaming_request_key_case_sensitive (endpoint : String)
    (request_data : PyDict)
    (h1 : strIn "stream" (strLower endpoint) = false)
    (h2 : strIn "live" (strLower endpoint) = false)
    (h3 : strIn "realtime" (strLower endpoint) = false)
    (h4 : (pyGetD request_data "stream" (PyValue.pybool false)).truthy = false)
    (h5 : pyHasKey request_data "realtime" = false)
    (h6 : pyHasKey request_data "live" = false) :
    is_streaming_request endpoint request_data = false := by
  simp [is_streaming_request, h1, h2, h3, h4, h5, h6]

/-- Witness for C10 at the endpoint "generateContent" with params whose only
candidate keys are the case variants "Live" and "REALTIME" (plus a falsy
"stream" entry). -/
theorem is_streaming_request_key_case_sensitive_witness :
    (strIn "stream" (strLower "generateContent") = false ∧
     strIn "live" (strLower "generateContent") = false ∧
     strIn "realtime" (strLower "generateContent") = false ∧
     (pyGetD [("Live", PyValue.pybool true), ("REALTIME", PyValue.pybool false),
        ("stream", PyValue.pybool false)] "stream" (PyValue.pybool false)).truthy = false ∧
     pyHasKey [("Live", PyValue.pybool true), ("REALTIME", PyValue.pybool false),
        ("stream", PyValue.pybool false)] "realtime" = false ∧
     pyHasKey [("Live", PyValue.pybool true), ("REALTIME", PyValue.pybool false),
        ("stream", PyValue.pybool false)] "live" = false) ∧
    is_streaming_request "generateContent"
      [("Live", PyValue.pybool true), ("REALTIME", PyValue.pybool false),
       ("stream", PyValue.pybool false)] = false :=
  ⟨⟨by decide, by decide, by decide, by decide, by decide, by decide⟩,
   is_streaming_request_key_case_sensitive "generateContent"
     [("Live", PyValue.pybool true), ("REALTIME", PyValue.pybool false),
      ("stream", PyValue.pybool false)]
     (by decide) (by decide) (by decide) (by decide) (by decide) (by decide)⟩

/-- C9: `get_base_model` is the identity on the supported-model catalog:
every entry of `get_models` contains the substring "live", so it is returned
unchanged. -/
theorem get_base_model_id_on_catalog (m : String) (hm : m ∈ get_models) :
    get_base_model m = some m := by
  simp only [get_models, List.mem_cons, List.mem_singleton, List.not_mem_nil, or_false] at hm
  rcases hm with rfl | rfl | rfl | rfl <;> decide

/-- Witness for C9 at the catalog entry "gemini-live-2.5-flash". -/
theorem get_base_model_id_on_catalog_witness :
    "gemini-live-2.5-flash" ∈ get_models ∧
    get_base_model "gemini-live-2.5-flash" = some "gemini-live-2.5-flash" :=
  ⟨by decide, get_base_model_id_on_catalog "gemini-live-2.5-flash" (by decide)⟩

/-- C1 counterexample: the model "gemini-pro" does not contain "live", yet
the lowercase stringified optional_params `\x7b'live': True\x7d` does, so
the claim requires `X-Goog-User-Project` to be present; with a successful
credential resolution the code leaves it absent (it only looks for "live"
in the model name and for "realtime" in the stringified params). -/
theorem validate_environment_xgoog_counterexample :
    strIn "live" (strLower (pyStr [("live", PyValue.pybool true)])) = true ∧
    validate_environment [] "gemini-pro" [("live", PyValue.pybool true)]
      (Except.ok ("tok", "proj")) =
      Except.ok
        [("Authorization", "Bearer tok"), ("Content-Type", "application/json")] ∧
    hcontains
      [("Authorization", "Bearer tok"), ("Content-Type", "application/json")]
      "X-Goog-User-Project" = false :=
  ⟨by decide, rfl, by decide⟩

/-- C1 (amended): with a successful credential resolution and an input
header mapping that does not already carry `X-Goog-User-Project`, the
returned mapping has `Authorization` set to `Bearer {access_token}` and
`Content-Type` set to `application/json`, and contains
`X-Goog-User-Project` if and only if the lowercase model name contains
"live" or the lowercase stringified optional_params contains "realtime". -/
theorem validate_environment_headers_contract (headers : HDict)
    (model : String) (optional_params : PyDict)
    (access_token project_id : String)
    (hfresh : hcontains headers "X-Goog-User-Project" = false) :
    ∃ result,
      validate_environment headers model optional_params
        (Except.ok (access_token, project_id)) = Except.ok result ∧
      hget result "Authorization" = some ("Bearer " ++ access_token) ∧
      hget result "Content-Type" = some "application/json" ∧
      (hcontains result "X-Goog-User-Project" = true ↔
        (strIn "live" (strLower model) = true ∨
         strIn "realtime" (strLower (pyStr optional_params)) = true)) := by
  refine ⟨validate_environment_headers headers model optional_params
    access_token project_id, rfl, ?_, ?_, ?_⟩
  · unfold validate_environment_headers
    by_cases hc : (strIn "live" (strLower model) ||
        strIn "realtime" (strLower (pyStr optional_params))) = true
    · simp only [hupdate, List.foldl, hc, if_pos rfl, ite_true]
      rw [hget_hset_ne _ _ _ _ (by decide),
        hget_hset_ne _ _ _ _ (by decide), hget_hset_self]
    · simp only [hupdate, List.foldl]
      rw [if_neg hc]
      rw [hget_hset_ne _ _ _ _ (by decide), hget_hset_self]
  · unfold validate_environment_headers
    by_cases hc : (strIn "live" (strLower model) ||
        strIn "realtime" (strLower (pyStr optional_params))) = true
    · simp only [hupdate, List.foldl, hc, ite_true]
      rw [hget_hset_ne _ _ _ _ (by decide), hget_hset_self]
    · simp only [hupdate, List.foldl]
      rw [if_neg hc]
      rw [hget_hset_self]
  · unfold validate_environment_headers
    by_cases hc : (strIn "live" (strLower model) ||
        strIn "realtime" (strLower (pyStr optional_params))) = true
    · simp only [hupdate, List.foldl, hc, ite_true]
      rw [hcontains_hset_self]
      simpa using Bool.or_eq_true _ _ |>.mp hc
    · simp only [hupdate, List.foldl]
      rw [if_neg hc]
      rw [hcontains_hset_ne _ _ _ _ (by decide),
        hcontains_hset_ne _ _ _ _ (by decide), hfresh]
      exact ⟨fun h => absurd h (by decide),
        fun hor => absurd ((Bool.or_eq_true _ _).mpr hor) hc⟩

/-- Witness for C1 (amended) at empty input headers, model "gemini-live"
and empty optional_params. -/
theorem validate_environment_headers_contract_witness :
    hcontains [] "X-Goog-User-Project" = false ∧
    ∃ result,
      validate_environment [] "gemini-live" []
        (Except.ok ("t", "p")) = Except.ok result ∧
      hget result "Authorization" = some ("Bearer " ++ "t") ∧
      hget result "Content-Type" = some "application/json" ∧
      (hcontains result "X-Goog-User-Project" = true ↔
        (strIn "live" (strLower "gemini-live") = true ∨
         strIn "realtime" (strLower (pyStr [])) = true)) :=
  ⟨by decide,
   validate_environment_headers_contract [] "gemini-live" [] "t" "p" (by decide)⟩

/-- C3 counterexample: calling `validate_environment` on an (initially
empty) caller-owned header dict mutates that dict in place — the caller's
mapping is no longer empty after the call — and the returned reference is
the very mapping the caller passed in, not an independent one. -/
theorem validate_environment_ref_mutation_counterexample :
    (validate_environment_ref [[]] 0 "gemini-pro" [] "tok" "proj").2 = 0 ∧
    (validate_environment_ref [[]] 0 "gemini-pro" [] "tok" "proj").1.getD 0 [] ≠
      ([] : HDict) :=
  ⟨rfl, by decide⟩

/-- C3 (amended): `validate_environment` updates the caller's header
mapping in place — after the call the dict object the caller passed in
holds the augmented headers — and returns that same object rather than an
independent copy. -/
theorem validate_environment_ref_updates_in_place (heap : List HDict)
    (r : Nat) (model : String) (optional_params : PyDict)
    (access_token project_id : String) (hr : r < heap.length) :
    (validate_environment_ref heap r model optional_params access_token
      project_id).2 = r ∧
    (validate_environment_ref heap r model optional_params access_token
      project_id).1.getD r [] =
      validate_environment_headers (heap.getD r []) model optional_params
        access_token project_id := by
  refine ⟨rfl, ?_⟩
  simp [validate_environment_ref, List.getElem?_set_self hr]

/-- C7: when the config's region is absent, `get_complete_url` behaves
exactly as if the region were the literal "global" — so "global" is the
region used both for host resolution and for the real-time URL template. -/
theorem get_complete_url_region_absent_global
    (resolve_host : Option String → String → Option String)
    (api_base : Option String) (model endpoint : String)
    (request_query_params : Option (List (String × String)))
    (p : Option String) :
    get_complete_url resolve_host api_base model endpoint
      request_query_params ⟨p, none⟩ =
    get_complete_url resolve_host api_base model endpoint
      request_query_params ⟨p, some "global"⟩ := rfl

/-- C4: for every endpoint whose lowercase form contains "live" or
"realtime" and every config without a project id, `get_complete_url` fails
with a `ConfigurationError` (no partially-built URL escapes), whatever the
host-resolution policy returns. -/
theorem get_complete_url_missing_project
    (resolve_host : Option String → String → Option String)
    (api_base : Option String) (model endpoint : String)
    (request_query_params : Option (List (String × String)))
    (cfg : ProviderConfig)
    (hlive : strIn "live" (strLower endpoint) = true ∨
             strIn "realtime" (strLower endpoint) = true)
    (hp : cfg.project_id = none) :
    ∃ msg, get_complete_url resolve_host api_base model endpoint
      request_query_params cfg =
      Except.error (VertexError.configurationError msg) := by
  have hcond : (strIn "live" (strLower endpoint) ||
      strIn "realtime" (strLower endpoint)) = true :=
    (Bool.or_eq_true _ _).mpr hlive
  rcases hres : resolve_host api_base (cfg.region.getD "global") with _ | base
  · exact ⟨"Vertex AI api base not found", by simp [get_complete_url, hres]⟩
  · exact ⟨"Vertex AI project ID is required for Live API",
      by simp [get_complete_url, hres, hcond, hp]⟩

/-- Witness for C4 at the endpoint "live/stream" with a config carrying no
project id, under the default host-resolution policy. -/
theorem get_complete_url_missing_project_witness :
    ((strIn "live" (strLower "live/stream") = true ∨
      strIn "realtime" (strLower "live/stream") = true) ∧
     (ProviderConfig.mk none none).project_id = none) ∧
    ∃ msg, get_complete_url get_api_base none "gemini-2.0-flash-live-preview"
      "live/stream" none ⟨none, none⟩ =
      Except.error (VertexError.configurationError msg) :=
  ⟨⟨Or.inl (by decide), rfl⟩,
   get_complete_url_missing_project get_api_base none
     "gemini-2.0-flash-live-preview" "live/stream" none ⟨none, none⟩
     (Or.inl (by decide)) rfl⟩

/-- C8: an endpoint that contains "live"/"realtime" but whose
slash-prefixed form already starts with "/v1beta1" is kept as supplied
(modulo the slash prefix): the canonical `:streamRawPredict` template is
not substituted. -/
theorem get_complete_url_keeps_v1beta1_endpoint
    (resolve_host : Option String → String → Option String)
    (api_base : Option String) (model endpoint : String)
    (request_query_params : Option (List (String × String)))
    (cfg : ProviderConfig) (p base : String)
    (hlive : strIn "live" (strLower endpoint) = true ∨
             strIn "realtime" (strLower endpoint) = true)
    (hp : cfg.project_id = some p)
    (hbase : resolve_host api_base (cfg.region.getD "global") = some base)
    (hv1 : strStartsWith (ensureSlash endpoint) "/v1beta1" = true) :
    get_complete_url resolve_host api_base model endpoint
      request_query_params cfg =
      Except.ok (format_url (ensureSlash endpoint) base request_query_params,
        base) := by
  have hcond : (strIn "live" (strLower endpoint) ||
      strIn "realtime" (strLower endpoint)) = true :=
    (Bool.or_eq_true _ _).mpr hlive
  simp [get_complete_url, hbase, hcond, hp, hv1]

/-- Witness for C8 at the endpoint "/v1beta1/live/stream" with project id
"p1" and region "us-central1", under the default host-resolution policy. -/
theorem get_complete_url_keeps_v1beta1_endpoint_witness :
    ((strIn "live" (strLower "/v1beta1/live/stream") = true ∨
      strIn "realtime" (strLower "/v1beta1/live/stream") = true) ∧
     (ProviderConfig.mk (some "p1") (some "us-central1")).project_id = some "p1" ∧
     strStartsWith (ensureSlash "/v1beta1/live/stream") "/v1beta1" = true) ∧
    get_complete_url get_api_base none "m" "/v1beta1/live/stream" none
      ⟨some "p1", some "us-central1"⟩ =
      Except.ok (format_url (ensureSlash "/v1beta1/live/stream")
        "https://us-central1-aiplatform.googleapis.com" none,
        "https://us-central1-aiplatform.googleapis.com") :=
  ⟨⟨Or.inl (by decide), rfl, by decide⟩,
   get_complete_url_keeps_v1beta1_endpoint get_api_base none "m"
     "/v1beta1/live/stream" none ⟨some "p1", some "us-central1"⟩ "p1"
     "https://us-central1-aiplatform.googleapis.com"
     (Or.inl (by decide)) rfl rfl (by decide)⟩

/-- C2 counterexample: the endpoint "/v1beta1/live" contains "live" and the
project id is present, yet `get_complete_url` keeps the caller-supplied
endpoint, so the resulting URL path does not end with ":streamRawPredict"
as the claim demands for every such endpoint. -/
theorem get_complete_url_template_counterexample :
    strIn "live" (strLower "/v1beta1/live") = true ∧
    (ProviderConfig.mk (some "p1") (some "us-central1")).project_id = some "p1" ∧
    get_complete_url get_api_base none "m" "/v1beta1/live" none
      ⟨some "p1", some "us-central1"⟩ =
      Except.ok
        (⟨"https://us-central1-aiplatform.googleapis.com/v1beta1/live", []⟩,
         "https://us-central1-aiplatform.googleapis.com") ∧
    strEndsWith "https://us-central1-aiplatform.googleapis.com/v1beta1/live"
      ":streamRawPredict" = false :=
  ⟨by decide, rfl, rfl, by decide⟩

/-- C2 (amended): for every model, every endpoint whose lowercase form
contains "live" or "realtime" and whose slash-prefixed form does not start
with "/v1beta1", and every config with a present project id and a resolved
host, `get_complete_url` discards the caller-supplied endpoint and replaces
it with the canonical template: the URL path ends with ":streamRawPredict"
and contains `v1beta1/projects/{project}/locations/{region}/publishers/google/models/{model}`
with the model interpolated verbatim. -/
theorem get_complete_url_live_template
    (resolve_host : Option String → String → Option String)
    (api_base : Option String) (model endpoint : String)
    (request_query_params : Option (List (String × String)))
    (cfg : ProviderConfig) (p base : String)
    (hlive : strIn "live" (strLower endpoint) = true ∨
             strIn "realtime" (strLower endpoint) = true)
    (hp : cfg.project_id = some p)
    (hbase : resolve_host api_base (cfg.region.getD "global") = some base)
    (hv1 : strStartsWith (ensureSlash endpoint) "/v1beta1" = false) :
    get_complete_url resolve_host api_base model endpoint
      request_query_params cfg =
      Except.ok (format_url
        ("/" ++ live_endpoint p (cfg.region.getD "global") model) base
        request_query_params, base) ∧
    strEndsWith (format_url
        ("/" ++ live_endpoint p (cfg.region.getD "global") model) base
        request_query_params).path ":streamRawPredict" = true ∧
    strIn ("v1beta1/projects/" ++ p ++ "/locations/" ++
        cfg.region.getD "global" ++ "/publishers/google/models/" ++ model)
      (format_url ("/" ++ live_endpoint p (cfg.region.getD "global") model)
        base request_query_params).path = true := by
  have hcond : (strIn "live" (strLower endpoint) ||
      strIn "realtime" (strLower endpoint)) = true :=
    (Bool.or_eq_true _ _).mpr hlive
  refine ⟨?_, ?_, ?_⟩
  · simp [get_complete_url, hbase, hcond, hp, hv1]
  · apply strEndsWith_of_suffix
    refine ⟨(base ++ ("/" ++ ("v1beta1/projects/" ++ p ++ "/locations/" ++
      cfg.region.getD "global" ++ "/publishers/google/models/" ++ model))).data, ?_⟩
    simp [format_url, live_endpoint, String.data_append, List.append_assoc]
  · apply strIn_of_infix
    refine ⟨(base ++ "/").data, (":streamRawPredict").data, ?_⟩
    simp [format_url, live_endpoint, String.data_append, List.append_assoc]

/-- Witness for C2 (amended) at the endpoint "live/stream", model
"gemini-2.0-flash-live-preview", project "p1" and region "us-central1",
under the default host-resolution policy. -/
theorem get_complete_url_live_template_witness :
    ((strIn "live" (strLower "live/stream") = true ∨
      strIn "realtime" (strLower "live/stream") = true) ∧
     strStartsWith (ensureSlash "live/stream") "/v1beta1" = false) ∧
    get_complete_url get_api_base none "gemini-2.0-flash-live-preview"
      "live/stream" none ⟨some "p1", some "us-central1"⟩ =
      Except.ok (format_url
        ("/" ++ live_endpoint "p1" "us-central1" "gemini-2.0-flash-live-preview")
        "https://us-central1-aiplatform.googleapis.com" none,
        "https://us-central1-aiplatform.googleapis.com") ∧
    strEndsWith (format_url
        ("/" ++ live_endpoint "p1" "us-central1" "gemini-2.0-flash-live-preview")
        "https://us-central1-aiplatform.googleapis.com" none).path
      ":streamRawPredict" = true ∧
    strIn ("v1beta1/projects/" ++ "p1" ++ "/locations/" ++ "us-central1" ++
        "/publishers/google/models/" ++ "gemini-2.0-flash-live-preview")
      (format_url
        ("/" ++ live_endpoint "p1" "us-central1" "gemini-2.0-flash-live-preview")
        "https://us-central1-aiplatform.googleapis.com" none).path = true :=
  ⟨⟨Or.inl (by decide), by decide⟩,
   get_complete_url_live_template get_api_base none
     "gemini-2.0-flash-live-preview" "live/stream" none
     ⟨some "p1", some "us-central1"⟩ "p1"
     "https://us-central1-aiplatform.googleapis.com"
     (Or.inl (by decide)) rfl rfl (by decide)⟩

/-- Witness for C3 (amended) on a one-object heap holding a nonempty
caller dict. -/
theorem validate_environment_ref_updates_in_place_witness :
    0 < ([[("k", "v")]] : List HDict).length ∧
    ((validate_environment_ref [[("k", "v")]] 0 "gemini-live" [] "t" "p").2 = 0 ∧
     (validate_environment_ref [[("k", "v")]] 0 "gemini-live" [] "t" "p").1.getD 0 [] =
       validate_environment_headers (([[("k", "v")]] : List HDict).getD 0 [])
         "gemini-live" [] "t" "p") :=
  ⟨by decide,
   validate_environment_ref_updates_in_place [[("k", "v")]] 0 "gemini-live" []
     "t" "p" (by decide)⟩

end VertexPassthrough
